import Mathlib

/-!
Verification of `src/qt/paymentrequestplus.cpp` (BIP70-style payment request
validation). The C++ methods `PaymentRequestPlus::parse`,
`PaymentRequestPlus::getMerchant` and `PaymentRequestPlus::getPayTo` are
shallowly embedded as pure Lean functions. External subsystems (protobuf
decoding, OpenSSL X.509 / EVP primitives, Qt certificate inspection, global
configuration) are modelled as an explicit environment `Env` of oracle
functions, and each embedded method additionally returns a trace of `Event`s
recording which external subsystem calls it performed, in order, so that
"never reached" properties are statable.
-/

set_option autoImplicit false

namespace PaymentRequests

/-- Raw byte strings (protobuf `bytes` / `std::string` payloads, DER blobs). -/
abbrev Bytes := List Nat

/-- An opaque native certificate handle (OpenSSL `X509*`), as produced by
`d2i_X509`. Only its identity matters to the control flow. -/
abbrev Cert := Nat

/-- An opaque trusted-root certificate store handle (OpenSSL `X509_STORE*`). -/
abbrev TrustStore := Nat

/-- The decoded outer envelope, protobuf message `payments::PaymentRequest`
with the fields read by `paymentrequestplus.cpp`. -/
structure PaymentRequest where
  payment_details_version : Nat
  pki_type : String
  pki_data : Bytes
  serialized_payment_details : Bytes
  signature : Bytes
  deriving DecidableEq, Repr

/-- The decoded inner payload, protobuf message `payments::PaymentDetails`:
an ordered list of outputs, each a script byte string and an amount. -/
structure PaymentDetails where
  outputs : List (Bytes × Int)
  deriving DecidableEq, Repr

/-- Modelled from the spec: the state `paymentRequest.Clear()` resets the
message to (protobuf defaults, per the schema in spec §6: fields
`payment_details_version` default 1, `pki_type` default "none", byte fields
empty). The `.proto` schema file is not among the provided sources. -/
def clearedRequest : PaymentRequest :=
  { payment_details_version := 1
    pki_type := "none"
    pki_data := []
    serialized_payment_details := []
    signature := [] }

/-- The state of a `PaymentRequestPlus` object: the stored decoded envelope
and the stored decoded details message. -/
structure PaymentRequestPlus where
  paymentRequest : PaymentRequest
  details : PaymentDetails
  deriving DecidableEq, Repr

/-- Trace events, one per external-subsystem call made by the embedded
methods, in the order the C++ performs them. -/
inductive Event where
  /-- `paymentRequest.ParseFromArray(data, size)` (outer envelope decode). -/
  | parseEnvelope : Event
  /-- `details.ParseFromString(...)` (inner details decode). -/
  | parseDetails : Event
  /-- the `pki_type` dispatch selecting a digest algorithm (lines 67-78). -/
  | inspectPkiType (t : String) : Event
  /-- `certChain.ParseFromString(paymentRequest.pki_data())`. -/
  | parsePkiData : Event
  /-- the Qt validity-window check on one certificate (line 91). -/
  | windowCheck (c : Bytes) : Event
  /-- the Qt blacklist check on one certificate (line 96). -/
  | blacklistCheck (c : Bytes) : Event
  /-- `d2i_X509` re-decoding of one certificate (line 102). -/
  | d2i (c : Bytes) : Event
  /-- `X509_verify_cert` path validation (line 131). -/
  | chainVerify : Event
  /-- `EVP_VerifyInit_ex`/`Update`/`Final` signature verification over
  `data` against `sig` (lines 154-157). -/
  | evpVerify (data sig : Bytes) : Event
  /-- `X509_NAME_get_text_by_NID` common-name extraction (lines 165-167). -/
  | extractCN : Event
  deriving DecidableEq, Repr

/-- The environment of external subsystems: protobuf codecs, Qt certificate
inspection, OpenSSL primitives and the global configuration map. Each field
models one external call made by `paymentrequestplus.cpp`. -/
structure Env where
  /-- `paymentRequest.IsInitialized()`: all required protobuf fields set. -/
  isInit : PaymentRequest → Bool
  /-- `ParseFromArray` on the outer envelope: `none` on decode failure. -/
  parseFromArray : Bytes → Option PaymentRequest
  /-- the unspecified partial message state `ParseFromArray` leaves behind
  when it fails. -/
  failedParseState : Bytes → PaymentRequest
  /-- `details.ParseFromString`: `none` on decode failure. -/
  parseDetails : Bytes → Option PaymentDetails
  /-- the unspecified partial message state `details.ParseFromString`
  leaves behind when it fails. -/
  failedDetailsState : Bytes → PaymentDetails
  /-- `certChain.ParseFromString` on `pki_data`: the list of DER
  certificate byte strings, or `none` on decode failure. -/
  parseCertChain : Bytes → Option (List Bytes)
  /-- `QDateTime::currentDateTime()` at the moment of the call. -/
  currentTime : Int
  /-- `QSslCertificate(..).effectiveDate()` of a DER certificate. -/
  effectiveDate : Bytes → Int
  /-- `QSslCertificate(..).expiryDate()` of a DER certificate. -/
  expiryDate : Bytes → Int
  /-- `QSslCertificate(..).isBlacklisted()` (Qt ≥ 5 build). -/
  isBlacklisted : Bytes → Bool
  /-- `d2i_X509` on a DER certificate: the native handle, or `none` when
  re-decoding fails. -/
  d2iX509 : Bytes → Option Cert
  /-- whether `X509_STORE_CTX_new()` succeeds. -/
  ctxNewOk : Bool
  /-- whether `X509_STORE_CTX_init(store_ctx, certStore, signing_cert, chain)`
  succeeds. -/
  ctxInitOk : Bool
  /-- `X509_verify_cert` on (store, signing certificate, intermediate
  chain): the verification result and, for a non-1 result, the value
  `X509_STORE_CTX_get_error` reports. -/
  verifyCert : TrustStore → Cert → List Cert → Int × Int
  /-- the global configuration entry `-allowselfsignedrootcertificates`,
  `none` when the argument was not supplied. -/
  argSelfSigned : Option Bool
  /-- whether `EVP_MD_CTX_create()` succeeds. -/
  mdCtxNewOk : Bool
  /-- `SerializeToString` on a `payments::PaymentRequest` message
  (deterministic re-serialization). -/
  serialize : PaymentRequest → Bytes
  /-- `EVP_VerifyInit_ex`/`Update`/`Final`: digest name, data to verify,
  signature bytes, key-bearing certificate; `true` iff all three calls
  succeed. -/
  evpVerify : String → Bytes → Bytes → Cert → Bool
  /-- `X509_NAME_get_text_by_NID(.., NID_commonName, ..)`: the common name
  of a certificate's subject, `none` when absent (`textlen` lookup
  mismatch or failure). -/
  commonName : Cert → Option String

/-- Modelled from the spec: `DEFAULT_SELFSIGNED_ROOTCERTS` is declared in
`paymentrequestplus.h`, which is not among the provided sources; spec §6
fixes the policy input as "a boolean (default false)". -/
def DEFAULT_SELFSIGNED_ROOTCERTS : Bool := false

/-- Modelled from the spec: `GetBoolArg(name, default)` lives in `util.cpp`,
not among the provided sources; it returns the configured value of the
argument when supplied and the default otherwise (spec §6 "Policy input: a
boolean (default false)", §9 "Global configuration lookup (policy flag)"). -/
def GetBoolArg (env : Env) : Bool :=
  env.argSelfSigned.getD DEFAULT_SELFSIGNED_ROOTCERTS

/-- OpenSSL's error code for "self-signed certificate at depth zero"
(`X509_V_ERR_DEPTH_ZERO_SELF_SIGNED_CERT`). -/
def X509_V_ERR_DEPTH_ZERO_SELF_SIGNED_CERT : Int := 18

/-- The digest-selection dispatch on `pki_type` (lines 67-78): the two
recognized schemes name a digest; `"none"` and unknown values select no
digest and make `getMerchant` return false. -/
def digestAlgorithm (t : String) : Option String :=
  if t = "x509+sha256" then some "sha256"
  else if t = "x509+sha1" then some "sha1"
  else if t = "none" then none
  else none

/-- The certificate-bundle loop of `getMerchant` (lines 86-105): per
certificate, check the validity window, check the blacklist, then
`d2i_X509`; a failed window or blacklist check aborts with an error, while a
failed `d2i_X509` skips the certificate and continues. Returns the collected
native handles (order preserved) and the trace of per-certificate checks. -/
def loadCerts (env : Env) : List Bytes → Except Unit (List Cert) × List Event
  | [] => (.ok [], [])
  | c :: rest =>
    if env.currentTime < env.effectiveDate c ∨ env.expiryDate c < env.currentTime then
      (.error (), [.windowCheck c])
    else if env.isBlacklisted c then
      (.error (), [.windowCheck c, .blacklistCheck c])
    else
      let r := (loadCerts env rest).1
      let tr := (loadCerts env rest).2
      match env.d2iX509 c with
      | some cert =>
        (r.map (cert :: ·), .windowCheck c :: .blacklistCheck c :: .d2i c :: tr)
      | none =>
        (r, .windowCheck c :: .blacklistCheck c :: .d2i c :: tr)

/-- `rcopy.set_signature(std::string(""))` applied to a copy of the stored
envelope (lines 144-145): the signature field cleared, all else kept. -/
def clearSignature (pr : PaymentRequest) : PaymentRequest :=
  { pr with signature := [] }

/-- The chain-validation / signature-verification / name-extraction tail of
`PaymentRequestPlus::getMerchant` (lines 111-183), entered once the bundle
loop produced a non-empty list headed by `signing_cert` with the remaining
`intermediates`: build the reversed intermediate stack (lines 111-114),
create and initialize the store context (lines 117-129), run
`X509_verify_cert` with the self-signed-root carve-out (lines 131-140),
verify the signature over the signature-cleared re-serialization (lines
144-163), and extract the subject common name (lines 165-171). `tr0` is the
trace accumulated so far. -/
def verifyChainAndSignature (env : Env) (certStore : TrustStore)
    (pr : PaymentRequest) (signing_cert : Cert) (intermediates : List Cert)
    (alg : String) (tr0 : List Event) : Bool × String × List Event :=
  let chain := intermediates.reverse
  if env.ctxNewOk = false then (false, "", tr0)
  else if env.ctxInitOk = false then (false, "", tr0)
  else
    let result := (env.verifyCert certStore signing_cert chain).1
    let error := (env.verifyCert certStore signing_cert chain).2
    let tr1 := tr0 ++ [.chainVerify]
    if result ≠ 1 ∧
        ¬(error = X509_V_ERR_DEPTH_ZERO_SELF_SIGNED_CERT ∧
          GetBoolArg env = true) then
      (false, "", tr1)
    else
      let data_to_verify := env.serialize (clearSignature pr)
      if env.mdCtxNewOk = false then (false, "", tr1)
      else
        let tr2 := tr1 ++ [.evpVerify data_to_verify pr.signature]
        if env.evpVerify alg data_to_verify pr.signature signing_cert
            = false then
          (false, "", tr2)
        else
          match env.commonName signing_cert with
          | some s =>
            if 0 < s.length then (true, s, tr2 ++ [.extractCN])
            else (false, "", tr2 ++ [.extractCN])
          | none => (false, "", tr2 ++ [.extractCN])

/-- `PaymentRequestPlus::getMerchant` (lines 60-184). Returns the boolean
result, the `merchant` out-parameter's final value (cleared at entry, set
only on the line-168 success path), and the trace of external calls. The
early stages (initialization check, digest dispatch, `pki_data` decode,
bundle loop, empty-chain check: lines 60-109) are here; the tail is
`verifyChainAndSignature`. -/
def getMerchant (env : Env) (certStore : TrustStore) (st : PaymentRequestPlus) :
    Bool × String × List Event :=
  if env.isInit st.paymentRequest = false then
    (false, "", [])
  else
    let pr := st.paymentRequest
    match digestAlgorithm pr.pki_type with
    | none => (false, "", [.inspectPkiType pr.pki_type])
    | some alg =>
      match env.parseCertChain pr.pki_data with
      | none => (false, "", [.inspectPkiType pr.pki_type, .parsePkiData])
      | some certChain =>
        let tr0 : List Event :=
          .inspectPkiType pr.pki_type :: .parsePkiData :: (loadCerts env certChain).2
        match (loadCerts env certChain).1 with
        | .error _ => (false, "", tr0)
        | .ok [] => (false, "", tr0)
        | .ok (signing_cert :: intermediates) =>
          verifyChainAndSignature env certStore pr signing_cert intermediates alg tr0

/-- `PaymentRequestPlus::parse` (lines 28-48). Returns the boolean result,
the updated object state, and the trace of decode calls. -/
def parse (env : Env) (st : PaymentRequestPlus) (data : Bytes) :
    Bool × PaymentRequestPlus × List Event :=
  match env.parseFromArray data with
  | none =>
    (false, { st with paymentRequest := env.failedParseState data }, [.parseEnvelope])
  | some pr =>
    if 1 < pr.payment_details_version then
      (false, { st with paymentRequest := pr }, [.parseEnvelope])
    else
      match env.parseDetails pr.serialized_payment_details with
      | none =>
        (false,
         { paymentRequest := clearedRequest
           details := env.failedDetailsState pr.serialized_payment_details },
         [.parseEnvelope, .parseDetails])
      | some d =>
        (true, { paymentRequest := pr, details := d }, [.parseEnvelope, .parseDetails])

/-- `PaymentRequestPlus::getPayTo` (lines 187-198): the stored details'
outputs as (script, amount) pairs, in order. -/
def getPayTo (st : PaymentRequestPlus) : List (Bytes × Int) :=
  st.details.outputs

/-! ### Concrete fixtures for evaluating the embedding -/

/-- A concrete envelope with a recognized `pki_type`. -/
def req0 : PaymentRequest :=
  { payment_details_version := 1
    pki_type := "x509+sha256"
    pki_data := [5]
    serialized_payment_details := [6]
    signature := [1] }

/-- A concrete object state holding `req0`. -/
def st0 : PaymentRequestPlus :=
  { paymentRequest := req0, details := { outputs := [] } }

/-- A concrete environment in which every external call succeeds and the
chain `[5]` decodes to the single certificate handle `0`. -/
def env0 : Env :=
  { isInit := fun _ => true
    parseFromArray := fun _ => some req0
    failedParseState := fun _ => clearedRequest
    parseDetails := fun _ => some { outputs := [] }
    failedDetailsState := fun _ => { outputs := [] }
    parseCertChain := fun _ => some [[5]]
    currentTime := 0
    effectiveDate := fun _ => 0
    expiryDate := fun _ => 0
    isBlacklisted := fun _ => false
    d2iX509 := fun _ => some 0
    ctxNewOk := true
    ctxInitOk := true
    verifyCert := fun _ _ _ => (1, 0)
    argSelfSigned := none
    mdCtxNewOk := true
    serialize := fun _ => []
    evpVerify := fun _ _ _ _ => true
    commonName := fun _ => some "a" }

/-! ### Helper lemmas -/

/-- `loadCerts` reads only the certificate-inspection oracles, so updating
the `verifyCert` oracle leaves it unchanged. -/
theorem loadCerts_update_verifyCert (env : Env) (v : TrustStore → Cert → List Cert → Int × Int)
    (cs : List Bytes) : loadCerts { env with verifyCert := v } cs = loadCerts env cs := by
  induction cs with
  | nil => rfl
  | cons c rest ih => simp only [loadCerts, ih]

/-- The trace of the certificate-bundle loop contains only per-certificate
inspection events, never a signature-verification event. -/
theorem evpVerify_not_mem_loadCerts (env : Env) (cs : List Bytes) (d s : Bytes) :
    Event.evpVerify d s ∉ (loadCerts env cs).2 := by
  induction cs with
  | nil => simp [loadCerts]
  | cons c rest ih =>
    simp only [loadCerts]
    split
    · simp
    · split
      · simp
      · split <;> simp_all

/-- If any certificate of the bundle fails the validity-window check, the
bundle loop aborts with an error. -/
theorem loadCerts_error_of_bad_window (env : Env) (cs : List Bytes) (c : Bytes)
    (hc : c ∈ cs)
    (hw : env.currentTime < env.effectiveDate c ∨ env.expiryDate c < env.currentTime) :
    (loadCerts env cs).1 = .error () := by
  induction cs with
  | nil => cases hc
  | cons a rest ih =>
    simp only [loadCerts]
    split
    · rfl
    · split
      · rfl
      · rcases List.mem_cons.mp hc with h | h
        · subst h; simp_all
        · split <;> simp [ih h, Except.map]

/-! ### Claim theorems -/

/-- C10: calling `getMerchant` before a successful parse (stored request not
initialized) returns false with the merchant output empty, and performs no
external call at all: no `pki_type` inspection, no certificate decoding, no
chain validation, no signature verification (empty trace). -/
theorem getMerchant_uninitialized (env : Env) (store : TrustStore)
    (st : PaymentRequestPlus) (h : env.isInit st.paymentRequest = false) :
    getMerchant env store st = (false, "", []) := by
  simp [getMerchant, h]

theorem getMerchant_uninitialized_witness :
    getMerchant { env0 with isInit := fun _ => false } 0 st0 = (false, "", []) :=
  getMerchant_uninitialized _ 0 st0 rfl

/-- C4: for every `pki_type` outside {"x509+sha256", "x509+sha1"} (which
includes the explicit "none" marker), `getMerchant` fails with an empty
merchant before any certificate is decoded: the trace holds no `d2i` event
and not even a `pki_data` parse event. -/
theorem getMerchant_unknown_pki_type (env : Env) (store : TrustStore)
    (st : PaymentRequestPlus) (c : Bytes)
    (h1 : st.paymentRequest.pki_type ≠ "x509+sha256")
    (h2 : st.paymentRequest.pki_type ≠ "x509+sha1") :
    (getMerchant env store st).1 = false ∧
    (getMerchant env store st).2.1 = "" ∧
    Event.d2i c ∉ (getMerchant env store st).2.2 ∧
    Event.parsePkiData ∉ (getMerchant env store st).2.2 := by
  have hd : digestAlgorithm st.paymentRequest.pki_type = none := by
    unfold digestAlgorithm
    rw [if_neg h1, if_neg h2]
    split <;> rfl
  unfold getMerchant
  split
  · simp
  · simp [hd]

theorem getMerchant_unknown_pki_type_witness :
    ((getMerchant env0 0 { st0 with paymentRequest := { req0 with pki_type := "none" } }).1
        = false ∧
      (getMerchant env0 0 { st0 with paymentRequest := { req0 with pki_type := "none" } }).2.1
        = "" ∧
      Event.d2i [5] ∉
        (getMerchant env0 0 { st0 with paymentRequest := { req0 with pki_type := "none" } }).2.2 ∧
      Event.parsePkiData ∉
        (getMerchant env0 0 { st0 with paymentRequest := { req0 with pki_type := "none" } }).2.2) :=
  getMerchant_unknown_pki_type env0 0 _ [5] (by decide) (by decide)

/-- C5: whenever the outer envelope decodes to a request with
`payment_details_version > 1`, `parse` returns false and the inner
`serialized_payment_details` is never parsed (no details-decode event). -/
theorem parse_upversion_rejected (env : Env) (st : PaymentRequestPlus)
    (data : Bytes) (pr : PaymentRequest)
    (ha : env.parseFromArray data = some pr)
    (hv : 1 < pr.payment_details_version) :
    (parse env st data).1 = false ∧
    Event.parseDetails ∉ (parse env st data).2.2 := by
  simp [parse, ha, hv]

theorem parse_upversion_rejected_witness :
    ((parse { env0 with
        parseFromArray := fun _ => some { req0 with payment_details_version := 2 } }
        st0 []).1 = false ∧
      Event.parseDetails ∉
        (parse { env0 with
          parseFromArray := fun _ => some { req0 with payment_details_version := 2 } }
          st0 []).2.2) :=
  parse_upversion_rejected _ st0 [] { req0 with payment_details_version := 2 }
    rfl (by decide)

/-- C9: a certificate that passes the validity-window and blacklist checks
but fails to re-decode through `d2i_X509` is silently skipped: the bundle
loop's result on `c :: rest` is the result on `rest` (processing continues
with the remaining certificates), with only the inspection events for `c`
prepended to the trace. -/
theorem loadCerts_skips_undecodable (env : Env) (c : Bytes) (rest : List Bytes)
    (hw : ¬(env.currentTime < env.effectiveDate c ∨ env.expiryDate c < env.currentTime))
    (hb : env.isBlacklisted c = false)
    (hd : env.d2iX509 c = none) :
    (loadCerts env (c :: rest)).1 = (loadCerts env rest).1 ∧
    (loadCerts env (c :: rest)).2 =
      Event.windowCheck c :: Event.blacklistCheck c :: Event.d2i c ::
        (loadCerts env rest).2 := by
  simp [loadCerts, hw, hb, hd]

theorem loadCerts_skips_undecodable_witness :
    ((loadCerts { env0 with d2iX509 := fun _ => none } ([5] :: [])).1 =
        (loadCerts { env0 with d2iX509 := fun _ => none } []).1 ∧
      (loadCerts { env0 with d2iX509 := fun _ => none } ([5] :: [])).2 =
        Event.windowCheck [5] :: Event.blacklistCheck [5] :: Event.d2i [5] ::
          (loadCerts { env0 with d2iX509 := fun _ => none } []).2) :=
  loadCerts_skips_undecodable _ [5] [] (by decide) rfl rfl

/-- Helper: the validation tail either succeeds or leaves the merchant
out-parameter empty. -/
theorem verifyTail_false_or_empty (env : Env) (certStore : TrustStore)
    (pr : PaymentRequest) (sc : Cert) (ints : List Cert) (alg : String)
    (tr0 : List Event) :
    (verifyChainAndSignature env certStore pr sc ints alg tr0).1 = true ∨
    (verifyChainAndSignature env certStore pr sc ints alg tr0).2.1 = "" := by
  simp only [verifyChainAndSignature]
  repeat' split
  all_goals simp

/-- Helper: every run of `getMerchant` either succeeds or leaves the
`merchant` out-parameter at its cleared-at-entry empty value. -/
theorem getMerchant_false_or_empty (env : Env) (store : TrustStore)
    (st : PaymentRequestPlus) :
    (getMerchant env store st).1 = true ∨ (getMerchant env store st).2.1 = "" := by
  simp only [getMerchant]
  repeat' split
  all_goals first
  | apply verifyTail_false_or_empty
  | simp

/-- C1: on every failing validation no trust-bearing value is exposed: the
merchant out-parameter is the empty string, and the (script, amount) outputs
play no part in `getMerchant`'s result — the result is unchanged under any
replacement of the stored details. -/
theorem getMerchant_failure_exposes_nothing (env : Env) (store : TrustStore)
    (st : PaymentRequestPlus) (d : PaymentDetails)
    (h : (getMerchant env store st).1 = false) :
    (getMerchant env store st).2.1 = "" ∧
    getMerchant env store { st with details := d } = getMerchant env store st := by
  refine ⟨?_, rfl⟩
  rcases getMerchant_false_or_empty env store st with ht | hm
  · rw [h] at ht; cases ht
  · exact hm

theorem getMerchant_failure_exposes_nothing_witness :
    ((getMerchant { env0 with evpVerify := fun _ _ _ _ => false } 0 st0).2.1 = "" ∧
      getMerchant { env0 with evpVerify := fun _ _ _ _ => false } 0
          { st0 with details := { outputs := [([2], 3)] } } =
        getMerchant { env0 with evpVerify := fun _ _ _ _ => false } 0 st0) :=
  getMerchant_failure_exposes_nothing _ 0 st0 { outputs := [([2], 3)] } rfl

/-- Helper: any signature-verification event produced by the validation tail
checks exactly the re-serialization of the signature-cleared envelope
against the stored signature bytes, unless it was already in the incoming
trace. -/
theorem verifyTail_evpVerify_mem (env : Env) (certStore : TrustStore)
    (pr : PaymentRequest) (sc : Cert) (ints : List Cert) (alg : String)
    (tr0 : List Event) (d s : Bytes)
    (h : Event.evpVerify d s ∈
      (verifyChainAndSignature env certStore pr sc ints alg tr0).2.2) :
    (d = env.serialize (clearSignature pr) ∧ s = pr.signature) ∨
    Event.evpVerify d s ∈ tr0 := by
  simp only [verifyChainAndSignature] at h
  repeat' split at h
  all_goals simp_all
  all_goals tauto

/-- C3: every signature verification performed by `getMerchant` is over the
deterministic re-serialization of the stored envelope with its signature
field cleared (and checks the original stored signature bytes); the cleared
copy differs from the stored envelope only in the signature field, so the
stored envelope itself is unchanged by verification. -/
theorem getMerchant_verifies_cleared_copy (env : Env) (store : TrustStore)
    (st : PaymentRequestPlus) (d s : Bytes)
    (h : Event.evpVerify d s ∈ (getMerchant env store st).2.2) :
    d = env.serialize (clearSignature st.paymentRequest) ∧
    s = st.paymentRequest.signature ∧
    (clearSignature st.paymentRequest).signature = [] ∧
    (clearSignature st.paymentRequest).pki_type = st.paymentRequest.pki_type ∧
    (clearSignature st.paymentRequest).pki_data = st.paymentRequest.pki_data ∧
    (clearSignature st.paymentRequest).serialized_payment_details =
      st.paymentRequest.serialized_payment_details ∧
    (clearSignature st.paymentRequest).payment_details_version =
      st.paymentRequest.payment_details_version := by
  have key : d = env.serialize (clearSignature st.paymentRequest) ∧
      s = st.paymentRequest.signature := by
    simp only [getMerchant] at h
    repeat' split at h
    all_goals
      first
      | simp [evpVerify_not_mem_loadCerts] at h
      | (rcases verifyTail_evpVerify_mem _ _ _ _ _ _ _ _ _ h with hk | hk
         · exact hk
         · simp [evpVerify_not_mem_loadCerts] at hk)
  exact ⟨key.1, key.2, rfl, rfl, rfl, rfl, rfl⟩

theorem getMerchant_verifies_cleared_copy_witness :
    ([] = env0.serialize (clearSignature st0.paymentRequest) ∧
      [1] = st0.paymentRequest.signature ∧
      (clearSignature st0.paymentRequest).signature = [] ∧
      (clearSignature st0.paymentRequest).pki_type = st0.paymentRequest.pki_type ∧
      (clearSignature st0.paymentRequest).pki_data = st0.paymentRequest.pki_data ∧
      (clearSignature st0.paymentRequest).serialized_payment_details =
        st0.paymentRequest.serialized_payment_details ∧
      (clearSignature st0.paymentRequest).payment_details_version =
        st0.paymentRequest.payment_details_version) :=
  getMerchant_verifies_cleared_copy env0 0 st0 [] [1] (by decide)

/-- C6: if any certificate of the decoded bundle, at any position, has a
validity window excluding the current check time, the whole validation
fails: `getMerchant` returns false with an empty merchant. -/
theorem getMerchant_expired_cert_fails (env : Env) (store : TrustStore)
    (st : PaymentRequestPlus) (cs : List Bytes) (c : Bytes)
    (hp : env.parseCertChain st.paymentRequest.pki_data = some cs)
    (hc : c ∈ cs)
    (hw : env.currentTime < env.effectiveDate c ∨ env.expiryDate c < env.currentTime) :
    (getMerchant env store st).1 = false ∧ (getMerchant env store st).2.1 = "" := by
  have herr := loadCerts_error_of_bad_window env cs c hc hw
  simp only [getMerchant]
  repeat' split
  all_goals simp_all

theorem getMerchant_expired_cert_fails_witness :
    ((getMerchant { env0 with expiryDate := fun _ => -1 } 0 st0).1 = false ∧
      (getMerchant { env0 with expiryDate := fun _ => -1 } 0 st0).2.1 = "") :=
  getMerchant_expired_cert_fails _ 0 st0 [[5]] [5] rfl (by decide) (by decide)

/-- C7: when the bundle loop yields zero usable certificates, validation
fails with an empty merchant and the signature verifier is never invoked
(no `evpVerify` event in the trace). -/
theorem getMerchant_empty_chain_no_verify (env : Env) (store : TrustStore)
    (st : PaymentRequestPlus) (cs : List Bytes) (d s : Bytes)
    (hp : env.parseCertChain st.paymentRequest.pki_data = some cs)
    (hl : (loadCerts env cs).1 = .ok []) :
    (getMerchant env store st).1 = false ∧
    (getMerchant env store st).2.1 = "" ∧
    Event.evpVerify d s ∉ (getMerchant env store st).2.2 := by
  simp only [getMerchant]
  repeat' split
  all_goals simp_all [evpVerify_not_mem_loadCerts]

theorem getMerchant_empty_chain_no_verify_witness :
    ((getMerchant { env0 with d2iX509 := fun _ => none } 0 st0).1 = false ∧
      (getMerchant { env0 with d2iX509 := fun _ => none } 0 st0).2.1 = "" ∧
      Event.evpVerify [] [1] ∉
        (getMerchant { env0 with d2iX509 := fun _ => none } 0 st0).2.2) :=
  getMerchant_empty_chain_no_verify _ 0 st0 [[5]] [] [1] rfl rfl

/-- C8: when the outer envelope decodes (with a supported version) but the
inner details do not, `parse` returns false, the stored envelope is reset to
the cleared message, and a subsequent `getMerchant` on the resulting state
fails immediately with no external calls — no partial object is exposed. -/
theorem parse_bad_details_discards (env : Env) (st : PaymentRequestPlus)
    (data : Bytes) (pr : PaymentRequest) (store : TrustStore)
    (ha : env.parseFromArray data = some pr)
    (hv : pr.payment_details_version ≤ 1)
    (hd : env.parseDetails pr.serialized_payment_details = none)
    (hi : env.isInit clearedRequest = false) :
    (parse env st data).1 = false ∧
    (parse env st data).2.1.paymentRequest = clearedRequest ∧
    getMerchant env store (parse env st data).2.1 = (false, "", []) := by
  have hnv : ¬ 1 < pr.payment_details_version := Nat.not_lt.mpr hv
  simp [parse, ha, hnv, hd, getMerchant, hi]

/-- A concrete environment whose inner-details decode always fails and whose
initialization check keys on the `pki_type` field (false on the cleared
message). -/
def env8 : Env :=
  { env0 with
    parseDetails := fun _ => none
    isInit := fun r => r.pki_type == "x509+sha256" }

theorem parse_bad_details_discards_witness :
    ((parse env8 st0 []).1 = false ∧
      (parse env8 st0 []).2.1.paymentRequest = clearedRequest ∧
      getMerchant env8 0 (parse env8 st0 []).2.1 = (false, "", [])) :=
  parse_bad_details_discards env8 st0 [] req0 0 rfl (by decide) rfl rfl

/-- Helper: under the carve-out condition (path validation reports exactly
the depth-zero self-signed-root error and the policy flag is set), a failing
`X509_verify_cert` outcome is treated exactly like a succeeding one: the
validation tail behaves as if the verifier had returned 1. -/
theorem verifyTail_carveout_continues (env : Env) (certStore : TrustStore)
    (pr : PaymentRequest) (sc : Cert) (ints : List Cert) (alg : String)
    (tr0 : List Event) (r e : Int)
    (hv : env.verifyCert = fun _ _ _ => (r, e))
    (he : e = X509_V_ERR_DEPTH_ZERO_SELF_SIGNED_CERT)
    (hb : GetBoolArg env = true) :
    verifyChainAndSignature env certStore pr sc ints alg tr0 =
      verifyChainAndSignature { env with verifyCert := fun _ _ _ => (1, e) }
        certStore pr sc ints alg tr0 := by
  subst he
  simp [verifyChainAndSignature, hv, hb]

/-- Helper: outside the carve-out condition, a failing `X509_verify_cert`
outcome aborts the validation tail before any signature verification. -/
theorem verifyTail_abort (env : Env) (certStore : TrustStore)
    (pr : PaymentRequest) (sc : Cert) (ints : List Cert) (alg : String)
    (tr0 : List Event) (r e : Int) (d s : Bytes)
    (hv : env.verifyCert = fun _ _ _ => (r, e))
    (hr : r ≠ 1)
    (hnc : ¬(e = X509_V_ERR_DEPTH_ZERO_SELF_SIGNED_CERT ∧ GetBoolArg env = true))
    (htr : Event.evpVerify d s ∉ tr0) :
    (verifyChainAndSignature env certStore pr sc ints alg tr0).1 = false ∧
    (verifyChainAndSignature env certStore pr sc ints alg tr0).2.1 = "" ∧
    Event.evpVerify d s ∉
      (verifyChainAndSignature env certStore pr sc ints alg tr0).2.2 := by
  simp only [verifyChainAndSignature, hv]
  repeat' split
  all_goals simp_all

/-- C2: the self-signed-root carve-out is the single tolerated
path-validation failure, and it is policy-gated with a false default:
`DEFAULT_SELFSIGNED_ROOTCERTS = false`; when `X509_verify_cert` reports a
non-1 result with error code exactly
`X509_V_ERR_DEPTH_ZERO_SELF_SIGNED_CERT` while the policy flag is set,
validation continues exactly as if path validation had succeeded; under any
other failing outcome the whole validation aborts (result false) without
ever reaching signature verification. -/
theorem getMerchant_selfsigned_carveout (env : Env) (store : TrustStore)
    (st : PaymentRequestPlus) (r e : Int) (d s : Bytes)
    (hr : r ≠ 1)
    (hv : env.verifyCert = fun _ _ _ => (r, e)) :
    DEFAULT_SELFSIGNED_ROOTCERTS = false ∧
    ((e = X509_V_ERR_DEPTH_ZERO_SELF_SIGNED_CERT ∧ GetBoolArg env = true) →
      getMerchant env store st =
        getMerchant { env with verifyCert := fun _ _ _ => (1, e) } store st) ∧
    (¬(e = X509_V_ERR_DEPTH_ZERO_SELF_SIGNED_CERT ∧ GetBoolArg env = true) →
      (getMerchant env store st).1 = false ∧
      Event.evpVerify d s ∉ (getMerchant env store st).2.2) := by
  refine ⟨rfl, ?_, ?_⟩
  · intro hc
    simp only [getMerchant, loadCerts_update_verifyCert]
    repeat' split
    all_goals first
    | rfl
    | exact verifyTail_carveout_continues env store st.paymentRequest
        _ _ _ _ r e hv hc.1 hc.2
  · intro hnc
    simp only [getMerchant]
    repeat' split
    all_goals first
    | (simp [evpVerify_not_mem_loadCerts]; done)
    | (refine ⟨(verifyTail_abort env store st.paymentRequest _ _ _ _ r e d s
          hv hr hnc ?_).1,
        (verifyTail_abort env store st.paymentRequest _ _ _ _ r e d s
          hv hr hnc ?_).2.2⟩ <;>
       simp [evpVerify_not_mem_loadCerts])

/-- An environment whose path validation always fails with the depth-zero
self-signed-root error while the carve-out policy flag is set. -/
def envSS : Env :=
  { env0 with
    verifyCert := fun _ _ _ => (0, 18)
    argSelfSigned := some true }

theorem getMerchant_selfsigned_carveout_witness :
    (DEFAULT_SELFSIGNED_ROOTCERTS = false ∧
      ((18 : Int) = X509_V_ERR_DEPTH_ZERO_SELF_SIGNED_CERT ∧ GetBoolArg envSS = true →
        getMerchant envSS 0 st0 =
          getMerchant { envSS with verifyCert := fun _ _ _ => (1, 18) } 0 st0) ∧
      (¬((18 : Int) = X509_V_ERR_DEPTH_ZERO_SELF_SIGNED_CERT ∧ GetBoolArg envSS = true) →
        (getMerchant envSS 0 st0).1 = false ∧
        Event.evpVerify [] [1] ∉ (getMerchant envSS 0 st0).2.2)) :=
  getMerchant_selfsigned_carveout envSS 0 st0 0 18 [] [1] (by decide) rfl

end PaymentRequests
